import Mathlib

/-!
Shallow embedding of the Vault Aggregation & Transaction-Routing Engine
(`VaultInterface` in the source) of the yearn-sdk repository.

The TypeScript source is translated into executable Lean definitions:
asynchronous collaborator calls become explicit parameters (oracles) or
trace entries, optional/undefined values become `Option`, JS truthiness
checks are modelled explicitly, and thrown `SdkError`s become `Except`.
-/

/-- Addresses and token identifiers are plain strings, as in the source. -/
abbrev Address := String

/-- Error type thrown by the engine (`SdkError` in the source); each
constructor corresponds to one `throw new SdkError(...)` site used by the
embedded operations, plus a wrapper for transaction-send failures. -/
inductive SdkError where
  | dynamicAssetMissing (address : Address)
  | missingSlippage
  | partnerAddressNotDefined
  | depositTransactionFailed
  | txSendError (code : Int)
deriving DecidableEq, Repr

/-! ## Transaction submission (`executeZapperTransaction`,
`executeVaultContractTransaction`) -/

/-- The gas-pricing fields of a `TransactionRequest`/`CallOverrides` object.
Other fields (`to`, `data`, `value`, `gasLimit`, ...) are carried through
both submission paths unchanged and are not modelled; a `none` field is an
absent (or `undefined`-assigned) JS property. -/
structure TxParams where
  gasPrice : Option Nat
  maxFeePerGas : Option Nat
  maxPriorityFeePerGas : Option Nat
deriving DecidableEq, Repr

/-- Error object surfaced by a failed `sendTransaction`; only the node
error `code` is inspected by the source. -/
structure TxError where
  code : Int
deriving DecidableEq, Repr

/-- Outcome oracle for `yearn.services.transaction.sendTransaction`: given
the attempt index (0 = first attempt, 1 = retry) and the submitted
parameters, the collaborator either succeeds or fails with a node error. -/
def SendOracle := Nat → TxParams → Except TxError Unit

/-- JS object spread `{...transactionRequest, ...overrides}`: a field
present on `overrides` replaces the request's field, an absent field keeps
it. -/
def mergeParams (transactionRequest overrides : TxParams) : TxParams :=
  { gasPrice := (overrides.gasPrice).orElse (fun _ => transactionRequest.gasPrice),
    maxFeePerGas := (overrides.maxFeePerGas).orElse (fun _ => transactionRequest.maxFeePerGas),
    maxPriorityFeePerGas :=
      (overrides.maxPriorityFeePerGas).orElse (fun _ => transactionRequest.maxPriorityFeePerGas) }

/-- `executeZapperTransaction` (source lines 648-668): first send with
`gasPrice` cleared; on failure with node error code -32602, clear the
EIP-1559 fields, set `gasPrice` to the caller override (`overrides.gasPrice
|| fallbackGasPrice`; a present BigNumber is always truthy) and send once
more.  Returns the list of submitted parameter sets together with the final
outcome. -/
def executeZapperTransaction (send : SendOracle) (transactionRequest overrides : TxParams)
    (fallbackGasPrice : Nat) : List TxParams × Except TxError Unit :=
  let p1 := { mergeParams transactionRequest overrides with gasPrice := none }
  match send 0 p1 with
  | .ok r => ([p1], .ok r)
  | .error e =>
    if e.code == -32602 then
      let combined := mergeParams transactionRequest overrides
      let p2 := { combined with
        maxFeePerGas := none
        maxPriorityFeePerGas := none
        gasPrice := some ((overrides.gasPrice).getD fallbackGasPrice) }
      ([p1, p2], send 1 p2)
    else ([p1], .error e)

/-- `executeVaultContractTransaction` (source lines 670-690): remembers the
caller's `gasPrice`, clears it for the first attempt, and on node error
-32602 clears the EIP-1559 fields, restores the original `gasPrice` and
retries once.  The `makeTransaction` closure receives the (mutated)
overrides object; the oracle stands for the closure composed with
`sendTransaction`. -/
def executeVaultContractTransaction (send : SendOracle) (overrides : TxParams) :
    List TxParams × Except TxError Unit :=
  let originalGasPrice := overrides.gasPrice
  let o1 := { overrides with gasPrice := none }
  match send 0 o1 with
  | .ok r => ([o1], .ok r)
  | .error e =>
    if e.code == -32602 then
      let o2 := { o1 with
        maxFeePerGas := none
        maxPriorityFeePerGas := none
        gasPrice := originalGasPrice }
      ([o1, o2], send 1 o2)
    else ([o1], .error e)

/-! ## Route resolution (`getDepositContractAddress`,
`getWithdrawContractAddress`, `deposit`) -/

/-- `ContractAddressId` values used by the embedded operations. -/
inductive ContractAddressId where
  | pickleZapIn
  | zapperZapIn
  | zapperZapOut
deriving DecidableEq, Repr

/-- `ZapProtocol` values passed to `zapIn`. -/
inductive ZapProtocol where
  | pickle
  | yearn
deriving DecidableEq, Repr

/-- Read-only collaborator state consulted by the routing functions.
`pickleJars` is the curated `PickleJars` list, `partnerAllowed` models
`!!partner?.isAllowed(vault)` (false when the partner service is absent),
`partnerAddress` models `partner?.address`, `addressById` the address
provider, `underlying` the `token` field of the vault's static record, and
`fantom` the `isFantom(chainId)` test.  `isNative` is modelled from the
spec: `isNativeToken` lives in `../helpers`, outside the embedded source;
the spec says it tests whether the token is the chain's native asset. -/
structure RouteEnv where
  fantom : Bool
  pickleJars : List Address
  partnerAddress : Option Address
  partnerAllowed : Address → Bool
  addressById : ContractAddressId → Address
  underlying : Address → Address
  isNative : Address → Bool

/-- The hardcoded wido router address returned on Fantom. -/
def widoRouterAddress : Address := "0x7Bbd6348db83C2fb3633Eebb70367E1AEc258764"

/-- `shouldUsePartnerService` (source lines 744-746). -/
def shouldUsePartnerService (env : RouteEnv) (vault : Address) : Bool :=
  env.partnerAllowed vault

/-- `getDepositContractAddress` (source lines 416-444). -/
def getDepositContractAddress (env : RouteEnv) (vaultAddress tokenAddress : Address) :
    Except SdkError Address :=
  if env.isNative tokenAddress then .ok vaultAddress
  else
    let willZapToPickleJar := env.pickleJars.contains vaultAddress
    let willDepositUnderlyingToken :=
      if willZapToPickleJar then false else env.underlying vaultAddress == tokenAddress
    let usePartner := shouldUsePartnerService env vaultAddress
    if willDepositUnderlyingToken && usePartner then
      match env.partnerAddress with
      | none => .error .partnerAddressNotDefined
      | some partnerTrackingContractAddress => .ok partnerTrackingContractAddress
    else if willDepositUnderlyingToken then .ok vaultAddress
    else if env.fantom then .ok widoRouterAddress
    else
      .ok (env.addressById
        (if willZapToPickleJar then ContractAddressId.pickleZapIn else ContractAddressId.zapperZapIn))

/-- `getWithdrawContractAddress` (source lines 446-457). -/
def getWithdrawContractAddress (env : RouteEnv) (vaultAddress tokenAddress : Address) : Address :=
  if env.underlying vaultAddress == tokenAddress then vaultAddress
  else if env.fantom then widoRouterAddress
  else env.addressById ContractAddressId.zapperZapOut

/-- Execution route chosen by `deposit`: either one of the zap paths
(`zapIn` with the given protocol) or a direct contract call whose populated
transaction targets the given contract. -/
inductive DepositRoute where
  | zap (protocol : ZapProtocol)
  | direct (target : Address)
deriving DecidableEq, Repr

/-- Route decision of `deposit` (source lines 473-501 together with
`populateDepositTransaction`, lines 760-777): a pickle-jar vault goes to
the pickle zap, a token different from the vault's underlying goes to the
yearn zap, otherwise the transaction is populated against the partner
tracking contract (when `shouldUsePartnerService`) or the vault contract;
an unavailable partner populate result raises the deposit-failed error. -/
def depositRoute (env : RouteEnv) (vault token : Address) : Except SdkError DepositRoute :=
  if env.pickleJars.contains vault then .ok (.zap .pickle)
  else if env.underlying vault != token then .ok (.zap .yearn)
  else if shouldUsePartnerService env vault then
    match env.partnerAddress with
    | some partnerTarget => .ok (.direct partnerTarget)
    | none => .error .depositTransactionFailed
  else .ok (.direct vault)

/-! ## Allowances and approvals (`getWithdrawAllowance`, `approveDeposit`,
`approveWithdraw`) -/

/-- `MaxUint256` from ethers constants. -/
def maxUint256 : Nat := 2 ^ 256 - 1

/-- Arguments handed to `yearn.tokens.approve(owner, token, spender,
amount)`. -/
structure ApproveCall where
  owner : Address
  token : Address
  spender : Address
  amount : Nat
deriving DecidableEq, Repr

/-- Arguments handed to `yearn.tokens.allowance(owner, token, spender)`. -/
structure AllowanceQuery where
  owner : Address
  token : Address
  spender : Address
deriving DecidableEq, Repr

/-- `approveDeposit` (source lines 373-388): resolves the deposit spender
and approves `amount ?? MaxUint256` of the deposit token. -/
def approveDeposit (env : RouteEnv) (accountAddress vaultAddress tokenAddress : Address)
    (amount : Option Nat) : Except SdkError ApproveCall :=
  (getDepositContractAddress env vaultAddress tokenAddress).map fun spenderAddress =>
    { owner := accountAddress, token := tokenAddress, spender := spenderAddress,
      amount := amount.getD maxUint256 }

/-- `approveWithdraw` (source lines 399-414): resolves the withdraw spender
and approves `amount ?? MaxUint256` of the vault share token (the vault
address is passed as the token to approve). -/
def approveWithdraw (env : RouteEnv) (accountAddress vaultAddress tokenAddress : Address)
    (amount : Option Nat) : ApproveCall :=
  { owner := accountAddress, token := vaultAddress,
    spender := getWithdrawContractAddress env vaultAddress tokenAddress,
    amount := amount.getD maxUint256 }

/-- `getWithdrawAllowance` (source lines 355-362): the allowance read is
`allowance(accountAddress, vaultAddress, spender)` where only the spender
depends on the token parameter. -/
def getWithdrawAllowance (env : RouteEnv) (accountAddress vaultAddress tokenAddress : Address) :
    AllowanceQuery :=
  { owner := accountAddress, token := vaultAddress,
    spender := getWithdrawContractAddress env vaultAddress tokenAddress }

/-! ## Withdraw (`withdraw`, source lines 512-561) with its collaborator
trace -/

/-- Network calls to collaborators issued by `withdraw`, in order:
the `getStatic` adapter fetch, the wido quote, the zapper `zapOut` quote,
and each `sendTransaction` attempt. -/
inductive CollabCall where
  | staticFetch
  | widoQuote
  | zapperQuote
  | sendTx
deriving DecidableEq, Repr

/-- Collaborator state consulted by `withdraw`: the vault's underlying
token (read through `getStatic`), the chain test, the send oracle, the
populated transaction returned by `wido.withdraw`, and the zapper `zapOut`
quote (its transaction-request gas fields and its quoted gas price). -/
structure WithdrawEnv where
  underlying : Address → Address
  fantom : Bool
  send : SendOracle
  widoTx : TxParams
  zapOutTx : TxParams
  zapOutGasPrice : Nat

/-- `withdraw` (source lines 512-561), returning the ordered list of
collaborator calls it issues together with its outcome.  The first action
is always the `getStatic([vault])` fetch that resolves the vault's
underlying token; a matching token takes the direct vault-contract path,
otherwise a missing slippage option aborts immediately, and otherwise the
wido (Fantom) or zapper quote is fetched and submitted. -/
def withdrawTrace (env : WithdrawEnv) (vault token : Address) (slippage : Option Nat)
    (overrides : TxParams) : List CollabCall × Except SdkError Unit :=
  if env.underlying vault == token then
    let result := executeVaultContractTransaction env.send overrides
    (CollabCall.staticFetch :: result.1.map (fun _ => CollabCall.sendTx),
      result.2.mapError fun e => SdkError.txSendError e.code)
  else
    match slippage with
    | none => ([CollabCall.staticFetch], .error SdkError.missingSlippage)
    | some _ =>
      if env.fantom then
        ([CollabCall.staticFetch, CollabCall.widoQuote, CollabCall.sendTx],
          (env.send 0 env.widoTx).mapError fun e => SdkError.txSendError e.code)
      else
        let transactionRequest := { env.zapOutTx with gasPrice := some env.zapOutGasPrice }
        let result := executeZapperTransaction env.send transactionRequest overrides env.zapOutGasPrice
        (CollabCall.staticFetch :: CollabCall.zapperQuote ::
            result.1.map (fun _ => CollabCall.sendTx),
          result.2.mapError fun e => SdkError.txSendError e.code)

/-! ## Vault records and metadata overrides -/

/-- APY record; only the fields touched by `fillMetadataOverrides` are
modelled (the fee/points/composite sub-records are opaque pass-throughs). -/
structure Apy where
  type : String
  gross_apr : Int
  net_apy : Int
deriving DecidableEq, Repr

/-- `makeEmptyApy` (source lines 748-758). -/
def makeEmptyApy : Apy :=
  { type := "manual_override", gross_apr := 0, net_apy := 0 }

/-- Per-vault strategies metadata entry keyed by vault address. -/
structure VaultStrategiesMetadata where
  vaultAddress : Address
  strategiesMetadata : List String
deriving DecidableEq, Repr

/-- Historic-earnings entry keyed by asset address. -/
structure AssetHistoricEarnings where
  assetAddress : Address
  dayData : List Nat
deriving DecidableEq, Repr

/-- The metadata bag of a dynamic vault record; a `none` value is an absent
or `undefined`-assigned JS property. -/
structure VaultMetadata where
  displayName : String
  symbol : Option String
  displayIcon : String
  defaultDisplayToken : Address
  apy : Option Apy
  emergencyShutdown : Option Bool
  depositsDisabled : Option Bool
  withdrawalsDisabled : Option Bool
  allowZapIn : Option Bool
  allowZapOut : Option Bool
  zapInWith : Option String
  zapOutWith : Option String
  migrationContract : Option Address
  migrationTargetVault : Option Address
  vaultNameOverride : Option String
  vaultDetailPageAssets : Option (List String)
  hideIfNoDeposits : Option Bool
  migrationAvailable : Option Bool
  strategies : Option VaultStrategiesMetadata
  historicEarnings : Option (List Nat)
deriving DecidableEq, Repr

/-- Static part of a vault record (`VaultStatic`). -/
structure VaultStatic where
  address : Address
  token : Address
  name : String
  symbol : String
  decimals : Nat
deriving DecidableEq, Repr

/-- Dynamic part of a vault record (`VaultDynamic`). -/
structure VaultDynamic where
  address : Address
  tokenId : Address
  metadata : VaultMetadata
deriving DecidableEq, Repr

/-- Merged vault record (`{...asset, ...dynamic}`): the spread puts the
dynamic fields (address, tokenId, metadata) over the static ones; the
shared `address` key takes the dynamic value. -/
structure Vault where
  address : Address
  token : Address
  name : String
  symbol : String
  decimals : Nat
  tokenId : Address
  metadata : VaultMetadata
deriving DecidableEq, Repr

/-- `{...asset, ...dynamic}`. -/
def mkVault (asset : VaultStatic) (dynamic : VaultDynamic) : Vault :=
  { address := dynamic.address, token := asset.token, name := asset.name,
    symbol := asset.symbol, decimals := asset.decimals,
    tokenId := dynamic.tokenId, metadata := dynamic.metadata }

/-- Curated override record (`VaultMetadataOverrides`); every field other
than the address key is optional. -/
structure VaultMetadataOverrides where
  address : Address
  hideAlways : Option Bool
  order : Option Int
  displayName : Option String
  vaultSymbolOverride : Option String
  vaultIconOverride : Option String
  apyTypeOverride : Option String
  apyOverride : Option Int
  depositsDisabled : Option Bool
  withdrawalsDisabled : Option Bool
  allowZapIn : Option Bool
  allowZapOut : Option Bool
  zapInWith : Option String
  zapOutWith : Option String
  migrationContract : Option Address
  migrationTargetVault : Option Address
  vaultNameOverride : Option String
  vaultDetailPageAssets : Option (List String)
  retired : Option Bool
  migrationAvailable : Option Bool
deriving DecidableEq, Repr

/-- JS truthiness of an optional string (`undefined` and `""` are falsy). -/
def truthyStr : Option String → Bool
  | none => false
  | some s => s != ""

/-- `fillMetadataOverrides` (source lines 704-742).  The string-valued
display fields and the APY fields are guarded by truthiness checks; the
remaining override fields are assigned unconditionally (an absent override
value overwrites the metadata field with `undefined`); finally
`hideIfNoDeposits` and `migrationAvailable` are recomputed with `||`
chains whose trailing `|| false` normalises falsy values. -/
def fillMetadataOverrides (dynamic : VaultDynamic) (overrides : VaultMetadataOverrides) :
    VaultDynamic :=
  let md := dynamic.metadata
  let md := match overrides.displayName with
    | some s => if s == "" then md else { md with displayName := s }
    | none => md
  let md := match overrides.vaultSymbolOverride with
    | some s => if s == "" then md else { md with symbol := some s }
    | none => md
  let md := match overrides.vaultIconOverride with
    | some s => if s == "" then md else { md with displayIcon := s }
    | none => md
  let md := match overrides.apyTypeOverride with
    | some s =>
      if s == "" then md
      else { md with apy := some { md.apy.getD makeEmptyApy with type := s } }
    | none => md
  let md := match overrides.apyOverride with
    | some n =>
      if n == 0 then md
      else
        let apy0 := md.apy.getD makeEmptyApy
        { md with apy := some { apy0 with net_apy := n, type := "override" } }
    | none => md
  let md := { md with
    depositsDisabled := overrides.depositsDisabled
    withdrawalsDisabled := overrides.withdrawalsDisabled
    allowZapIn := overrides.allowZapIn
    allowZapOut := overrides.allowZapOut
    zapInWith := overrides.zapInWith
    zapOutWith := overrides.zapOutWith
    migrationContract := overrides.migrationContract
    migrationTargetVault := overrides.migrationTargetVault
    vaultNameOverride := overrides.vaultNameOverride
    vaultDetailPageAssets := overrides.vaultDetailPageAssets }
  let md := { md with
    hideIfNoDeposits := some (md.emergencyShutdown.getD false || overrides.retired.getD false
      || overrides.migrationAvailable.getD false)
    migrationAvailable := some (md.migrationAvailable.getD false
      || overrides.migrationAvailable.getD false) }
  { dynamic with metadata := md }

/-! ## The merge-and-sort core of `get` (source lines 94-116) -/

/-- A JS number used as a sort key: `overrides?.order ?? Math.max()`.
`Math.max()` of no arguments is `-Infinity`, so a vault without an explicit
`order` gets the key negInf. -/
inductive JsOrder where
  | negInf
  | num (n : Int)
deriving DecidableEq, Repr

/-- Sign of the comparator `lhs.order - rhs.order`.  Two negInf keys give
`(-Infinity) - (-Infinity) = NaN`, which the engine's sort treats as 0. -/
def orderCmp : JsOrder → JsOrder → Ordering
  | .negInf, .negInf => .eq
  | .negInf, .num _ => .lt
  | .num _, .negInf => .gt
  | .num a, .num b => compare a b

/-- Stable insertion of an element into a list already sorted by
`orderCmp` on the second component, placing it after existing equal keys
were it inserted from the left; used to model the engine's stable sort. -/
def insertByOrder (x : Vault × JsOrder) : List (Vault × JsOrder) → List (Vault × JsOrder)
  | [] => [x]
  | y :: ys => if orderCmp x.2 y.2 == .gt then y :: insertByOrder x ys else x :: y :: ys

/-- Stable sort by the order key (`.sort((lhs, rhs) => lhs.order -
rhs.order)`; ES2019 sort is stable). -/
def sortByOrder : List (Vault × JsOrder) → List (Vault × JsOrder)
  | [] => []
  | x :: xs => insertByOrder x (sortByOrder xs)

/-- The per-static-record loop of `get` (source lines 96-114): find the
dynamic record (throwing when absent), skip the vault when its override is
`hideAlways`, compute the order key (`overrides?.order ?? Math.max()`),
default the display name to the static name, attach strategies metadata and
historic earnings, and emit the merged vault with its key. -/
def mergeLoop (assetsDynamic : List VaultDynamic)
    (vaultMetadataOverrides : List VaultMetadataOverrides)
    (strategiesMetadata : List VaultStrategiesMetadata)
    (assetsHistoricEarnings : List AssetHistoricEarnings) :
    List VaultStatic → Except SdkError (List (Vault × JsOrder))
  | [] => .ok []
  | asset :: rest =>
    match assetsDynamic.find? (fun d => asset.address == d.address) with
    | none => .error (.dynamicAssetMissing asset.address)
    | some dynamic =>
      let ov := vaultMetadataOverrides.find? (fun o => o.address == asset.address)
      if (ov.bind (·.hideAlways)).getD false then
        mergeLoop assetsDynamic vaultMetadataOverrides strategiesMetadata
          assetsHistoricEarnings rest
      else
        let order : JsOrder := match ov.bind (·.order) with
          | some n => .num n
          | none => .negInf
        let md := dynamic.metadata
        let md := { md with
          displayName := if md.displayName == "" then asset.name else md.displayName }
        let md := { md with
          strategies := strategiesMetadata.find? (fun m => m.vaultAddress == asset.address) }
        let md := { md with
          historicEarnings :=
            (assetsHistoricEarnings.find? (fun e => e.assetAddress == asset.address)).map
              (·.dayData) }
        match mergeLoop assetsDynamic vaultMetadataOverrides strategiesMetadata
            assetsHistoricEarnings rest with
        | .error e => .error e
        | .ok tail => .ok ((mkVault asset { dynamic with metadata := md }, order) :: tail)

/-- The merge-and-sort tail of `get` (source lines 94-116), taking the
already-fetched collaborator results as inputs: build the keyed records,
sort by the order key and drop the keys. -/
def getVaults (assetsStatic : List VaultStatic) (assetsDynamic : List VaultDynamic)
    (vaultMetadataOverrides : List VaultMetadataOverrides)
    (strategiesMetadata : List VaultStrategiesMetadata)
    (assetsHistoricEarnings : List AssetHistoricEarnings) : Except SdkError (List Vault) :=
  match mergeLoop assetsDynamic vaultMetadataOverrides strategiesMetadata
      assetsHistoricEarnings assetsStatic with
  | .error e => .error e
  | .ok assetsWithOrder => .ok ((sortByOrder assetsWithOrder).map Prod.fst)

/-! ## Chunked fallback of the aggregator (`get` lines 67-75, `positionsOf`
lines 213-234) -/

/-- Fuel-driven worker for `chunkArray`; the fuel starts at the list length
and each step consumes at least one element when `size ≥ 1`. -/
def chunkArrayGo (size : Nat) : Nat → List α → List (List α)
  | 0, _ => []
  | _, [] => []
  | fuel + 1, x :: xs => ((x :: xs).take size) :: chunkArrayGo size fuel ((x :: xs).drop size)

/-- Modelled from the spec: `chunkArray` lives in `../helpers`, outside the
embedded source; the spec says the full address set is split into
consecutive fixed-size chunks (chunk size 30 at both call sites), the last
chunk holding the remainder. -/
def chunkArray (xs : List α) (size : Nat) : List (List α) :=
  if size = 0 then [] else chunkArrayGo size xs.length xs

/-- Position record returned by `positionsOf`; only the asset address key
is relevant to the fallback's coverage property. -/
structure Position where
  assetAddress : Address
deriving DecidableEq, Repr

/-- The chunked-fallback pattern shared by `get` (lines 67-75, with
`query` = `getDynamic` per chunk and `allAddresses` the static record
addresses) and `positionsOf` (lines 213-234, with `query` =
`adapter.positionsOf` per chunk and `allAddresses` the filter or the
static addresses): when the unchunked query succeeded its result is used
and no chunk query is issued; on failure the address set is split into
chunks of 30, the query is re-issued per chunk and the chunk results are
flattened.  The second component counts the chunk queries issued. -/
def chunkedFallback (unchunked : Except Unit (List β)) (query : List Address → List β)
    (allAddresses : List Address) : List β × Nat :=
  match unchunked with
  | .ok result => (result, 0)
  | .error _ =>
    (((chunkArray allAddresses 30).map query).flatten, (chunkArray allAddresses 30).length)

/-! ## Concrete records used to evaluate the definitions -/

/-- A metadata bag with every optional field absent. -/
def emptyMetadata : VaultMetadata :=
  { displayName := "", symbol := none, displayIcon := "", defaultDisplayToken := "",
    apy := none, emergencyShutdown := none, depositsDisabled := none,
    withdrawalsDisabled := none, allowZapIn := none, allowZapOut := none,
    zapInWith := none, zapOutWith := none, migrationContract := none,
    migrationTargetVault := none, vaultNameOverride := none,
    vaultDetailPageAssets := none, hideIfNoDeposits := none,
    migrationAvailable := none, strategies := none, historicEarnings := none }

/-- An override record for the given address with every optional field
absent. -/
def emptyOverrides (a : Address) : VaultMetadataOverrides :=
  { address := a, hideAlways := none, order := none, displayName := none,
    vaultSymbolOverride := none, vaultIconOverride := none, apyTypeOverride := none,
    apyOverride := none, depositsDisabled := none, withdrawalsDisabled := none,
    allowZapIn := none, allowZapOut := none, zapInWith := none, zapOutWith := none,
    migrationContract := none, migrationTargetVault := none, vaultNameOverride := none,
    vaultDetailPageAssets := none, retired := none, migrationAvailable := none }

/-- Routing environment of a non-Fantom chain where vault `0xJar` is a
pickle jar, the account is partner-eligible for every vault, the partner
tracking contract is configured, every vault's underlying token is
`0xWeth`, and `0xEth` is the chain-native asset. -/
def exRouteEnv : RouteEnv :=
  { fantom := false, pickleJars := ["0xJar"], partnerAddress := some "0xPartner",
    partnerAllowed := fun _ => true, addressById := fun _ => "0xZapContract",
    underlying := fun _ => "0xWeth", isNative := fun a => a == "0xEth" }

/-- Withdraw environment: vault underlying is `0xWeth`, non-Fantom chain,
every send attempt succeeds. -/
def exWithdrawEnv : WithdrawEnv :=
  { underlying := fun _ => "0xWeth", fantom := false, send := fun _ _ => .ok (),
    widoTx := { gasPrice := none, maxFeePerGas := none, maxPriorityFeePerGas := none },
    zapOutTx := { gasPrice := none, maxFeePerGas := none, maxPriorityFeePerGas := none },
    zapOutGasPrice := 11 }

/-- Send oracle whose first attempt fails with node error -32602 and whose
retry succeeds. -/
def exRetrySend : SendOracle := fun attempt _ =>
  if attempt == 0 then .error { code := -32602 } else .ok ()

/-- Caller overrides carrying EIP-1559 fee fields and no legacy gas
price. -/
def exOverrides : TxParams :=
  { gasPrice := none, maxFeePerGas := some 40, maxPriorityFeePerGas := some 2 }

/-- A quote transaction request carrying a gas price. -/
def exQuoteTx : TxParams :=
  { gasPrice := some 13, maxFeePerGas := none, maxPriorityFeePerGas := none }

/-- Two static records for sort experiments. -/
def exStaticA : VaultStatic :=
  { address := "0xA", token := "0xTA", name := "Vault A", symbol := "vA", decimals := 18 }

/-- Second static record. -/
def exStaticB : VaultStatic :=
  { address := "0xB", token := "0xTB", name := "Vault B", symbol := "vB", decimals := 18 }

/-- Dynamic record for `0xA`. -/
def exDynA : VaultDynamic :=
  { address := "0xA", tokenId := "0xTA", metadata := { emptyMetadata with displayName := "A" } }

/-- Dynamic record for `0xB`. -/
def exDynB : VaultDynamic :=
  { address := "0xB", tokenId := "0xTB", metadata := { emptyMetadata with displayName := "B" } }

/-- Override giving `0xA` the explicit order 1; `0xB` has no override. -/
def exOrderOverrideA : VaultMetadataOverrides :=
  { emptyOverrides "0xA" with order := some 1 }

/-- Override for `0xB` that sets `hideAlways`. -/
def exHideOverrideB : VaultMetadataOverrides :=
  { emptyOverrides "0xB" with hideAlways := some true }

/-- A dynamic record whose derived metadata carries zap capability and
lifecycle values. -/
def exDynZap : VaultDynamic :=
  { address := "0xA", tokenId := "0xTA",
    metadata := { emptyMetadata with
      allowZapIn := some true, allowZapOut := some true,
      zapInWith := some "zapperZapIn", zapOutWith := some "zapperZapOut",
      depositsDisabled := some false, withdrawalsDisabled := some false,
      migrationContract := some "0xMig", migrationAvailable := some true } }

/-- Sixty-one distinct addresses. -/
def exAddresses61 : List Address := (List.range 61).map (fun n => toString n)

/-- Chunk query that answers one dynamic record per requested address. -/
def exChunkQuery : List Address → List VaultDynamic :=
  fun chunk => chunk.map (fun a => { address := a, tokenId := a, metadata := emptyMetadata })

/-! ## Theorems -/

/-- Any static record without a matching dynamic record makes `mergeLoop`
fail with the aggregation-consistency error. -/
theorem mergeLoop_error_of_missing (assetsDynamic : List VaultDynamic)
    (ovs : List VaultMetadataOverrides) (sm : List VaultStrategiesMetadata)
    (he : List AssetHistoricEarnings) (s : VaultStatic) :
    ∀ statics : List VaultStatic, s ∈ statics →
      (∀ d ∈ assetsDynamic, d.address ≠ s.address) →
      ∃ a, mergeLoop assetsDynamic ovs sm he statics
        = .error (SdkError.dynamicAssetMissing a) := by
  intro statics
  induction statics with
  | nil => intro h; cases h
  | cons asset rest ih =>
    intro hmem hnd
    rcases List.mem_cons.mp hmem with rfl | hmem'
    · have hfind : assetsDynamic.find? (fun d => s.address == d.address) = none := by
        apply List.find?_eq_none.mpr
        intro d hd
        simpa [beq_iff_eq] using (hnd d hd).symm
      exact ⟨s.address, by simp [mergeLoop, hfind]⟩
    · rcases hfind : assetsDynamic.find? (fun d => asset.address == d.address) with _ | dynamic
      · exact ⟨asset.address, by simp [mergeLoop, hfind]⟩
      · obtain ⟨a, ha⟩ := ih hmem' hnd
        by_cases hhide :
            ((ovs.find? (fun o => o.address == asset.address)).bind (·.hideAlways)).getD false
              = true
        · exact ⟨a, by simp [mergeLoop, hfind, hhide, ha]⟩
        · exact ⟨a, by simp [mergeLoop, hfind, hhide, ha]⟩

/-- C5: for every static vault record processed by `get`, if no dynamic
record with the same address exists in the fetched dynamic set, the whole
listing call fails with the aggregation consistency error (the static
record is never silently dropped). -/
theorem C5_missing_dynamic_aborts (assetsStatic : List VaultStatic)
    (assetsDynamic : List VaultDynamic) (ovs : List VaultMetadataOverrides)
    (sm : List VaultStrategiesMetadata) (he : List AssetHistoricEarnings)
    (s : VaultStatic) (hs : s ∈ assetsStatic)
    (hnd : ∀ d ∈ assetsDynamic, d.address ≠ s.address) :
    ∃ a, getVaults assetsStatic assetsDynamic ovs sm he
      = .error (SdkError.dynamicAssetMissing a) := by
  obtain ⟨a, ha⟩ := mergeLoop_error_of_missing assetsDynamic ovs sm he s assetsStatic hs hnd
  exact ⟨a, by simp [getVaults, ha]⟩

/-- Witness for C5 at a concrete input: one static record `0xA`, one
dynamic record `0xB`. -/
theorem C5_missing_dynamic_aborts_witness :
    exStaticA ∈ [exStaticA]
    ∧ (∀ d ∈ [exDynB], d.address ≠ exStaticA.address)
    ∧ ∃ a, getVaults [exStaticA] [exDynB] [] [] []
        = .error (SdkError.dynamicAssetMissing a) :=
  ⟨by simp, by decide,
    C5_missing_dynamic_aborts [exStaticA] [exDynB] [] [] [] exStaticA (by simp) (by decide)⟩

/-- C10: the missing-dynamic-record consistency check is evaluated before
the `hideAlways` filter: a static record whose override sets `hideAlways`
but which lacks a matching dynamic record still aborts the entire listing
with the aggregation error instead of being filtered out of the result. -/
theorem C10_consistency_check_before_hide_filter (assetsStatic : List VaultStatic)
    (assetsDynamic : List VaultDynamic) (ovs : List VaultMetadataOverrides)
    (sm : List VaultStrategiesMetadata) (he : List AssetHistoricEarnings)
    (s : VaultStatic) (hs : s ∈ assetsStatic)
    (hnd : ∀ d ∈ assetsDynamic, d.address ≠ s.address)
    (ov : VaultMetadataOverrides) (hov : ov ∈ ovs) (hova : ov.address = s.address)
    (hhide : ov.hideAlways = some true) :
    ∃ a, getVaults assetsStatic assetsDynamic ovs sm he
      = .error (SdkError.dynamicAssetMissing a) := by
  obtain ⟨a, ha⟩ := mergeLoop_error_of_missing assetsDynamic ovs sm he s assetsStatic hs hnd
  exact ⟨a, by simp [getVaults, ha]⟩

/-- Witness for C10 at a concrete input: static record `0xB` carries a
`hideAlways` override and has no dynamic record, yet the call errors. -/
theorem C10_consistency_check_before_hide_filter_witness :
    exHideOverrideB.hideAlways = some true
    ∧ (∃ a, getVaults [exStaticB] [exDynA] [exHideOverrideB] [] []
        = .error (SdkError.dynamicAssetMissing a)) :=
  ⟨rfl,
    C10_consistency_check_before_hide_filter [exStaticB] [exDynA] [exHideOverrideB] [] []
      exStaticB (by simp) (by decide) exHideOverrideB (by simp) (by decide) rfl⟩

/-- C3: evaluation of `get`'s merge-and-sort at the failing input.  With
overrides `{0xA: order = 1}` and no override for `0xB`, the sentinel key
`overrides?.order ?? Math.max()` is `Math.max()` = -Infinity, so the
unordered vault `0xB` sorts BEFORE the explicitly ordered `0xA`: the
output is `[0xB, 0xA]`, not the `[0xA, 0xB]` the claim requires
(unordered vaults float to the start, not the end). -/
theorem C3_unordered_vault_sorts_first :
    (getVaults [exStaticA, exStaticB] [exDynA, exDynB] [exOrderOverrideA] [] []).map
        (fun l => l.map Vault.address) = .ok ["0xB", "0xA"]
    ∧ (["0xB", "0xA"] : List Address) ≠ ["0xA", "0xB"] :=
  ⟨rfl, by decide⟩

/-- C7 (counterexample): an override record with every optional field
absent erases the derived zap capability of the dynamic record:
`allowZapIn` goes from `some true` to `none` instead of staying
untouched. -/
theorem C7_absent_override_clobbers_zap_flags :
    (fillMetadataOverrides exDynZap (emptyOverrides "0xA")).metadata.allowZapIn = none
    ∧ exDynZap.metadata.allowZapIn = some true :=
  ⟨rfl, rfl⟩

/-- C7 (amended): when applying a metadata override record, absent
override fields leave the derived display name, symbol, icon and APY
untouched, but the zap routing hints, disabled flags and
migration/name/detail fields are copied unconditionally from the override
record (absent values overwrite the derived values with undefined), and
`hideIfNoDeposits`/`migrationAvailable` are recomputed as
truthiness-disjunctions. -/
theorem C7_override_application (dynamic : VaultDynamic)
    (overrides : VaultMetadataOverrides)
    (hdn : overrides.displayName = none) (hsy : overrides.vaultSymbolOverride = none)
    (hic : overrides.vaultIconOverride = none) (hat : overrides.apyTypeOverride = none)
    (hao : overrides.apyOverride = none) :
    (fillMetadataOverrides dynamic overrides).metadata.displayName
        = dynamic.metadata.displayName
    ∧ (fillMetadataOverrides dynamic overrides).metadata.symbol = dynamic.metadata.symbol
    ∧ (fillMetadataOverrides dynamic overrides).metadata.displayIcon
        = dynamic.metadata.displayIcon
    ∧ (fillMetadataOverrides dynamic overrides).metadata.apy = dynamic.metadata.apy
    ∧ (fillMetadataOverrides dynamic overrides).metadata.depositsDisabled
        = overrides.depositsDisabled
    ∧ (fillMetadataOverrides dynamic overrides).metadata.withdrawalsDisabled
        = overrides.withdrawalsDisabled
    ∧ (fillMetadataOverrides dynamic overrides).metadata.allowZapIn = overrides.allowZapIn
    ∧ (fillMetadataOverrides dynamic overrides).metadata.allowZapOut = overrides.allowZapOut
    ∧ (fillMetadataOverrides dynamic overrides).metadata.zapInWith = overrides.zapInWith
    ∧ (fillMetadataOverrides dynamic overrides).metadata.zapOutWith = overrides.zapOutWith
    ∧ (fillMetadataOverrides dynamic overrides).metadata.migrationContract
        = overrides.migrationContract
    ∧ (fillMetadataOverrides dynamic overrides).metadata.migrationTargetVault
        = overrides.migrationTargetVault
    ∧ (fillMetadataOverrides dynamic overrides).metadata.hideIfNoDeposits
        = some (dynamic.metadata.emergencyShutdown.getD false
            || overrides.retired.getD false || overrides.migrationAvailable.getD false)
    ∧ (fillMetadataOverrides dynamic overrides).metadata.migrationAvailable
        = some (dynamic.metadata.migrationAvailable.getD false
            || overrides.migrationAvailable.getD false) := by
  simp [fillMetadataOverrides, hdn, hsy, hic, hat, hao]

/-- Witness for C7 (amended) at a concrete input. -/
theorem C7_override_application_witness :
    (fillMetadataOverrides exDynZap (emptyOverrides "0xA")).metadata.displayName
        = exDynZap.metadata.displayName
    ∧ (fillMetadataOverrides exDynZap (emptyOverrides "0xA")).metadata.allowZapIn
        = (emptyOverrides "0xA").allowZapIn
    ∧ (fillMetadataOverrides exDynZap (emptyOverrides "0xA")).metadata.migrationAvailable
        = some true := by
  have h := C7_override_application exDynZap (emptyOverrides "0xA") rfl rfl rfl rfl rfl
  refine ⟨h.1, h.2.2.2.2.2.2.1, ?_⟩
  rw [h.2.2.2.2.2.2.2.2.2.2.2.2.2]
  rfl

/-- C1 (counterexample): for a native-asset deposit into a pickle-jar
vault by a partner-eligible account, `getDepositContractAddress` does
resolve to the vault, but the route-resolution path used by `deposit`
checks the pickle-jar set before anything else and routes to the pickle
zap, not to the vault contract directly. -/
theorem C1_deposit_path_ignores_native_check :
    getDepositContractAddress exRouteEnv "0xJar" "0xEth" = .ok "0xJar"
    ∧ exRouteEnv.isNative "0xEth" = true
    ∧ exRouteEnv.pickleJars.contains "0xJar" = true
    ∧ shouldUsePartnerService exRouteEnv "0xJar" = true
    ∧ depositRoute exRouteEnv "0xJar" "0xEth" = .ok (DepositRoute.zap ZapProtocol.pickle)
    ∧ DepositRoute.zap ZapProtocol.pickle ≠ DepositRoute.direct "0xJar" :=
  ⟨rfl, rfl, rfl, rfl, rfl, by decide⟩

/-- C1 (amended): a native-asset deposit resolves to the vault contract on
the `getDepositContractAddress` path regardless of jar membership or
partner eligibility; the `deposit` path performs no native-asset check: a
pickle-jar vault routes to the pickle zap and a native token differing
from the vault's recorded underlying token routes to the yearn zap, so the
deposit path reaches the vault contract directly only when the token
matches the vault's underlying token and neither the jar set nor the
partner service applies. -/
theorem C1_native_deposit_routing (env : RouteEnv) (vault token : Address)
    (hnative : env.isNative token = true) :
    getDepositContractAddress env vault token = .ok vault
    ∧ (env.pickleJars.contains vault = true →
        depositRoute env vault token = .ok (DepositRoute.zap ZapProtocol.pickle))
    ∧ (env.pickleJars.contains vault = false → env.underlying vault ≠ token →
        depositRoute env vault token = .ok (DepositRoute.zap ZapProtocol.yearn))
    ∧ (env.pickleJars.contains vault = false → env.underlying vault = token →
        shouldUsePartnerService env vault = false →
        depositRoute env vault token = .ok (DepositRoute.direct vault)) := by
  refine ⟨by simp [getDepositContractAddress, hnative], ?_, ?_, ?_⟩
  · intro hjar
    have hm : vault ∈ env.pickleJars := by simpa using hjar
    simp [depositRoute, hm]
  · intro hjar hne
    have hm : vault ∉ env.pickleJars := by simpa using hjar
    simp [depositRoute, hm, hne]
  · intro hjar heq hpartner
    have hm : vault ∉ env.pickleJars := by simpa using hjar
    simp [depositRoute, hm, heq, hpartner]

/-- Witness for C1 (amended) at concrete inputs. -/
theorem C1_native_deposit_routing_witness :
    exRouteEnv.isNative "0xEth" = true
    ∧ getDepositContractAddress exRouteEnv "0xJar" "0xEth" = .ok "0xJar"
    ∧ depositRoute exRouteEnv "0xJar" "0xEth" = .ok (DepositRoute.zap ZapProtocol.pickle)
    ∧ depositRoute exRouteEnv "0xOther" "0xEth" = .ok (DepositRoute.zap ZapProtocol.yearn) := by
  have h := C1_native_deposit_routing exRouteEnv "0xJar" "0xEth" rfl
  have h2 := C1_native_deposit_routing exRouteEnv "0xOther" "0xEth" rfl
  exact ⟨rfl, h.1, h.2.1 rfl, h2.2.2.1 (by decide) (by decide)⟩

/-- C2 (counterexample): a withdraw of a non-underlying token without a
slippage option does fail with the missing-slippage error, but one
collaborator network call (the `getStatic` fetch that resolves the
vault's underlying token) has already been issued when the error is
raised, so the number of prior collaborator invocations is one, not
zero. -/
theorem C2_static_fetch_precedes_slippage_error :
    withdrawTrace exWithdrawEnv "0xV" "0xDai" none exOverrides
      = ([CollabCall.staticFetch], .error SdkError.missingSlippage)
    ∧ ([CollabCall.staticFetch] : List CollabCall) ≠ [] :=
  ⟨rfl, by decide⟩

/-- C2 (amended): a withdraw request whose token is not the vault's
underlying token and whose options carry no slippage value fails with the
missing-slippage error after exactly one collaborator call — the static
fetch needed to resolve the underlying token — and before any quote or
transaction-send call. -/
theorem C2_missing_slippage_validation (env : WithdrawEnv) (vault token : Address)
    (overrides : TxParams) (hne : env.underlying vault ≠ token) :
    withdrawTrace env vault token none overrides
      = ([CollabCall.staticFetch], .error SdkError.missingSlippage) := by
  simp [withdrawTrace, hne]

/-- Witness for C2 (amended) at concrete inputs. -/
theorem C2_missing_slippage_validation_witness :
    exWithdrawEnv.underlying "0xV" ≠ "0xDai"
    ∧ withdrawTrace exWithdrawEnv "0xV" "0xDai" none exOverrides
        = ([CollabCall.staticFetch], .error SdkError.missingSlippage) :=
  ⟨by decide, C2_missing_slippage_validation exWithdrawEnv "0xV" "0xDai" exOverrides (by decide)⟩

/-- Equation for `executeZapperTransaction` when the first send succeeds. -/
theorem executeZapperTransaction_ok (send : SendOracle)
    (transactionRequest overrides : TxParams) (fallbackGasPrice : Nat) (r : Unit)
    (hs : send 0 { mergeParams transactionRequest overrides with gasPrice := none }
      = .ok r) :
    executeZapperTransaction send transactionRequest overrides fallbackGasPrice
      = ([{ mergeParams transactionRequest overrides with gasPrice := none }], .ok r) := by
  simp [executeZapperTransaction, hs]

/-- Equation for `executeZapperTransaction` when the first send fails with
the node-incompatibility code. -/
theorem executeZapperTransaction_retry (send : SendOracle)
    (transactionRequest overrides : TxParams) (fallbackGasPrice : Nat) (e : TxError)
    (hs : send 0 { mergeParams transactionRequest overrides with gasPrice := none }
      = .error e) (hc : e.code = -32602) :
    executeZapperTransaction send transactionRequest overrides fallbackGasPrice
      = ([{ mergeParams transactionRequest overrides with gasPrice := none },
          { mergeParams transactionRequest overrides with
              maxFeePerGas := none, maxPriorityFeePerGas := none,
              gasPrice := some ((overrides.gasPrice).getD fallbackGasPrice) }],
        send 1 { mergeParams transactionRequest overrides with
              maxFeePerGas := none, maxPriorityFeePerGas := none,
              gasPrice := some ((overrides.gasPrice).getD fallbackGasPrice) }) := by
  simp [executeZapperTransaction, hs, hc]

/-- Equation for `executeZapperTransaction` when the first send fails with
any other code. -/
theorem executeZapperTransaction_err (send : SendOracle)
    (transactionRequest overrides : TxParams) (fallbackGasPrice : Nat) (e : TxError)
    (hs : send 0 { mergeParams transactionRequest overrides with gasPrice := none }
      = .error e) (hc : e.code ≠ -32602) :
    executeZapperTransaction send transactionRequest overrides fallbackGasPrice
      = ([{ mergeParams transactionRequest overrides with gasPrice := none }], .error e) := by
  simp [executeZapperTransaction, hs, hc]

/-- Equation for `executeVaultContractTransaction` when the first send
succeeds. -/
theorem executeVaultContractTransaction_ok (send : SendOracle) (overrides : TxParams)
    (r : Unit) (hs : send 0 { overrides with gasPrice := none } = .ok r) :
    executeVaultContractTransaction send overrides
      = ([{ overrides with gasPrice := none }], .ok r) := by
  simp [executeVaultContractTransaction, hs]

/-- Equation for `executeVaultContractTransaction` when the first send
fails with the node-incompatibility code. -/
theorem executeVaultContractTransaction_retry (send : SendOracle) (overrides : TxParams)
    (e : TxError) (hs : send 0 { overrides with gasPrice := none } = .error e)
    (hc : e.code = -32602) :
    executeVaultContractTransaction send overrides
      = ([{ overrides with gasPrice := none },
          { overrides with maxFeePerGas := none, maxPriorityFeePerGas := none }],
        send 1 { overrides with maxFeePerGas := none, maxPriorityFeePerGas := none }) := by
  simp [executeVaultContractTransaction, hs, hc]

/-- Equation for `executeVaultContractTransaction` when the first send
fails with any other code. -/
theorem executeVaultContractTransaction_err (send : SendOracle) (overrides : TxParams)
    (e : TxError) (hs : send 0 { overrides with gasPrice := none } = .error e)
    (hc : e.code ≠ -32602) :
    executeVaultContractTransaction send overrides
      = ([{ overrides with gasPrice := none }], .error e) := by
  simp [executeVaultContractTransaction, hs, hc]

/-- C4: the two-attempt gas-parameter fallback, on both the zap submission
path and the direct vault-contract path.  The first attempt is sent with
legacy `gasPrice` cleared; a second attempt exists exactly when the first
failed with node error code -32602, and it clears both EIP-1559 fee fields
and sets `gasPrice` to the caller-supplied override — defaulted, on the
zap path, to the quote's fallback gas price; when only one attempt is made
its outcome (success or a failure with any other code) is the final result
unchanged, and when a retry is made its outcome is final: at most two
parameter sets are ever submitted, so no third attempt exists. -/
theorem C4_two_attempt_gas_fallback (send : SendOracle)
    (transactionRequest overrides : TxParams) (fallbackGasPrice : Nat)
    (zAttempts vAttempts : List TxParams) (zResult vResult : Except TxError Unit)
    (hz : executeZapperTransaction send transactionRequest overrides fallbackGasPrice
      = (zAttempts, zResult))
    (hv : executeVaultContractTransaction send overrides = (vAttempts, vResult)) :
    (∃ p1, zAttempts.head? = some p1 ∧ p1.gasPrice = none
      ∧ (zAttempts.length = 1 ∨ zAttempts.length = 2)
      ∧ (zAttempts.length = 1 → zResult = send 0 p1
          ∧ ∀ e, send 0 p1 = .error e → e.code ≠ -32602)
      ∧ (∀ p2, zAttempts.get? 1 = some p2 →
          (∃ e, send 0 p1 = .error e ∧ e.code = -32602)
          ∧ p2.maxFeePerGas = none ∧ p2.maxPriorityFeePerGas = none
          ∧ p2.gasPrice = some ((overrides.gasPrice).getD fallbackGasPrice)
          ∧ zResult = send 1 p2))
    ∧ (∃ q1, vAttempts.head? = some q1 ∧ q1.gasPrice = none
      ∧ (vAttempts.length = 1 ∨ vAttempts.length = 2)
      ∧ (vAttempts.length = 1 → vResult = send 0 q1
          ∧ ∀ e, send 0 q1 = .error e → e.code ≠ -32602)
      ∧ (∀ q2, vAttempts.get? 1 = some q2 →
          (∃ e, send 0 q1 = .error e ∧ e.code = -32602)
          ∧ q2.maxFeePerGas = none ∧ q2.maxPriorityFeePerGas = none
          ∧ q2.gasPrice = overrides.gasPrice
          ∧ vResult = send 1 q2)) := by
  constructor
  · rcases hs : send 0 { mergeParams transactionRequest overrides with gasPrice := none }
        with e | r
    · by_cases hc : e.code = -32602
      · rw [executeZapperTransaction_retry send transactionRequest overrides
            fallbackGasPrice e hs hc] at hz
        injection hz with h1 h2
        subst h1; subst h2
        refine ⟨_, rfl, rfl, Or.inr rfl, by intro h; simp at h, ?_⟩
        intro p2 hp2
        simp only [List.get?] at hp2
        injection hp2 with hp2
        subst hp2
        exact ⟨⟨e, hs, hc⟩, rfl, rfl, rfl, rfl⟩
      · rw [executeZapperTransaction_err send transactionRequest overrides
            fallbackGasPrice e hs hc] at hz
        injection hz with h1 h2
        subst h1; subst h2
        refine ⟨_, rfl, rfl, Or.inl rfl, ?_, by intro p2 hp2; cases hp2⟩
        intro _
        refine ⟨hs.symm, ?_⟩
        intro e2 he2
        rw [hs] at he2
        injection he2 with he2
        subst he2
        exact hc
    · rw [executeZapperTransaction_ok send transactionRequest overrides
          fallbackGasPrice r hs] at hz
      injection hz with h1 h2
      subst h1; subst h2
      refine ⟨_, rfl, rfl, Or.inl rfl, ?_, by intro p2 hp2; cases hp2⟩
      intro _
      exact ⟨hs.symm, by intro e2 he2; rw [hs] at he2; cases he2⟩
  · rcases hs : send 0 { overrides with gasPrice := none } with e | r
    · by_cases hc : e.code = -32602
      · rw [executeVaultContractTransaction_retry send overrides e hs hc] at hv
        injection hv with h1 h2
        subst h1; subst h2
        refine ⟨_, rfl, rfl, Or.inr rfl, by intro h; simp at h, ?_⟩
        intro q2 hq2
        simp only [List.get?] at hq2
        injection hq2 with hq2
        subst hq2
        exact ⟨⟨e, hs, hc⟩, rfl, rfl, rfl, rfl⟩
      · rw [executeVaultContractTransaction_err send overrides e hs hc] at hv
        injection hv with h1 h2
        subst h1; subst h2
        refine ⟨_, rfl, rfl, Or.inl rfl, ?_, by intro q2 hq2; cases hq2⟩
        intro _
        refine ⟨hs.symm, ?_⟩
        intro e2 he2
        rw [hs] at he2
        injection he2 with he2
        subst he2
        exact hc
    · rw [executeVaultContractTransaction_ok send overrides r hs] at hv
      injection hv with h1 h2
      subst h1; subst h2
      refine ⟨_, rfl, rfl, Or.inl rfl, ?_, by intro q2 hq2; cases hq2⟩
      intro _
      exact ⟨hs.symm, by intro e2 he2; rw [hs] at he2; cases he2⟩

/-- Witness for C4 at a concrete input: a send oracle whose first attempt
fails with code -32602 and whose retry succeeds, caller overrides carrying
EIP-1559 fields and no legacy gas price, and quote fallback gas price 13. -/
theorem C4_two_attempt_gas_fallback_witness :
    ∃ p2, (executeZapperTransaction exRetrySend exQuoteTx exOverrides 13).1.get? 1 = some p2
      ∧ p2.maxFeePerGas = none ∧ p2.maxPriorityFeePerGas = none
      ∧ p2.gasPrice = some ((exOverrides.gasPrice).getD 13)
      ∧ (executeZapperTransaction exRetrySend exQuoteTx exOverrides 13).2
          = exRetrySend 1 p2 := by
  have h := C4_two_attempt_gas_fallback exRetrySend exQuoteTx exOverrides 13
    [⟨none, some 40, some 2⟩, ⟨some 13, none, none⟩]
    [⟨none, some 40, some 2⟩, ⟨none, none, none⟩] (.ok ()) (.ok ()) rfl rfl
  obtain ⟨p1, -, -, -, -, h5⟩ := h.1
  have h2 := h5 ⟨some 13, none, none⟩ rfl
  exact ⟨⟨some 13, none, none⟩, rfl, h2.2.1, h2.2.2.1, h2.2.2.2.1, h2.2.2.2.2⟩

/-- C8: when the amount parameter is omitted, both `approveDeposit` and
`approveWithdraw` issue the approval for the maximum uint256 value
(an unlimited allowance). -/
theorem C8_omitted_amount_approves_max_uint256 (env : RouteEnv)
    (accountAddress vaultAddress tokenAddress : Address) :
    (∀ call, approveDeposit env accountAddress vaultAddress tokenAddress none = .ok call →
        call.amount = 2 ^ 256 - 1)
    ∧ (approveWithdraw env accountAddress vaultAddress tokenAddress none).amount
        = 2 ^ 256 - 1 := by
  constructor
  · intro call h
    unfold approveDeposit at h
    cases hg : getDepositContractAddress env vaultAddress tokenAddress with
    | error e => rw [hg] at h; cases h
    | ok spenderAddress =>
      rw [hg] at h
      injection h with h
      subst h
      rfl
  · rfl

/-- Witness for C8 at a concrete input. -/
theorem C8_omitted_amount_approves_max_uint256_witness :
    approveDeposit exRouteEnv "0xMe" "0xJar" "0xDai" none
      = .ok (⟨"0xMe", "0xDai", "0xZapContract", 2 ^ 256 - 1⟩ : ApproveCall)
    ∧ ((⟨"0xMe", "0xDai", "0xZapContract", 2 ^ 256 - 1⟩ : ApproveCall)).amount = 2 ^ 256 - 1
    ∧ (approveWithdraw exRouteEnv "0xMe" "0xJar" "0xDai" none).amount = 2 ^ 256 - 1 := by
  have h := C8_omitted_amount_approves_max_uint256 exRouteEnv "0xMe" "0xJar" "0xDai"
  exact ⟨rfl, h.1 _ rfl, h.2⟩

/-- C9: `getWithdrawAllowance` always reads the allowance of the vault
share token — the vault address is passed as the token whose allowance is
queried — on behalf of the account; the token parameter only selects the
spender contract (via `getWithdrawContractAddress`) and never which
token's allowance is read. -/
theorem C9_withdraw_allowance_reads_vault_token (env : RouteEnv)
    (accountAddress vaultAddress tokenAddress otherToken : Address) :
    (getWithdrawAllowance env accountAddress vaultAddress tokenAddress).token = vaultAddress
    ∧ (getWithdrawAllowance env accountAddress vaultAddress tokenAddress).owner
        = accountAddress
    ∧ (getWithdrawAllowance env accountAddress vaultAddress tokenAddress).spender
        = getWithdrawContractAddress env vaultAddress tokenAddress
    ∧ (getWithdrawAllowance env accountAddress vaultAddress tokenAddress).token
        = (getWithdrawAllowance env accountAddress vaultAddress otherToken).token :=
  ⟨rfl, rfl, rfl, rfl⟩

/-- One recursion step of the chunking worker. -/
theorem chunkArrayGo_succ (size fuel : Nat) (x : α) (l : List α) :
    chunkArrayGo size (fuel + 1) (x :: l)
      = ((x :: l).take size) :: chunkArrayGo size fuel ((x :: l).drop size) := rfl

/-- The chunking worker on the empty list. -/
theorem chunkArrayGo_nil (size fuel : Nat) :
    chunkArrayGo size fuel ([] : List α) = [] := by
  cases fuel <;> rfl

/-- Flattening the chunks restores the original list (with enough fuel and
a positive chunk size). -/
theorem chunkArrayGo_flatten (size : Nat) (hsize : size ≠ 0) :
    ∀ (fuel : Nat) (xs : List α), xs.length ≤ fuel →
      (chunkArrayGo size fuel xs).flatten = xs := by
  intro fuel
  induction fuel with
  | zero =>
    intro xs h
    obtain rfl : xs = [] := List.length_eq_zero.mp (Nat.le_zero.mp h)
    rfl
  | succ n ih =>
    intro xs h
    match xs with
    | [] => rfl
    | x :: l =>
      rw [chunkArrayGo_succ, List.flatten_cons, ih _ ?_, List.take_append_drop]
      have hd : ((x :: l).drop size).length = (x :: l).length - size := List.length_drop ..
      have hs1 : 1 ≤ size := Nat.one_le_iff_ne_zero.mpr hsize
      simp only [List.length_cons] at h hd
      omega

/-- `chunkArray` with a positive chunk size splits a list into chunks whose
concatenation is the original list: every element is covered exactly once,
with no duplicates and no omissions. -/
theorem chunkArray_flatten (xs : List α) (size : Nat) (hsize : size ≠ 0) :
    (chunkArray xs size).flatten = xs := by
  unfold chunkArray
  rw [if_neg hsize]
  exact chunkArrayGo_flatten size hsize xs.length xs le_rfl

/-- A 61-element list splits into chunks of sizes 30, 30 and 1. -/
theorem chunkArray_lengths_61 (xs : List α) (h : xs.length = 61) :
    (chunkArray xs 30).map List.length = [30, 30, 1] := by
  obtain ⟨x, l, rfl⟩ := List.exists_cons_of_ne_nil
    (by intro hn; rw [hn] at h; simp at h : xs ≠ [])
  have hl : l.length = 60 := by simpa using h
  have hd1 : ((x :: l).drop 30).length = 31 := by simp [hl]
  obtain ⟨y, m, hdrop1⟩ : ∃ y m, (x :: l).drop 30 = y :: m := by
    rcases hd : (x :: l).drop 30 with _ | ⟨y, m⟩
    · rw [hd] at hd1; simp at hd1
    · exact ⟨y, m, rfl⟩
  have hm : m.length = 30 := by
    rw [hdrop1] at hd1; simpa using hd1
  have hd2 : ((y :: m).drop 30).length = 1 := by simp [hm]
  obtain ⟨z, k, hdrop2⟩ : ∃ z k, (y :: m).drop 30 = z :: k := by
    rcases hd : (y :: m).drop 30 with _ | ⟨z, k⟩
    · rw [hd] at hd2; simp at hd2
    · exact ⟨z, k, rfl⟩
  obtain rfl : k = [] := by
    rw [hdrop2] at hd2
    exact List.length_eq_zero.mp (by simpa using hd2)
  unfold chunkArray
  rw [if_neg (by decide), h]
  rw [show (61 : Nat) = 60 + 1 from rfl, chunkArrayGo_succ, hdrop1]
  rw [show (60 : Nat) = 59 + 1 from rfl, chunkArrayGo_succ, hdrop2]
  rw [show (59 : Nat) = 58 + 1 from rfl, chunkArrayGo_succ]
  rw [show ([z] : List α).drop 30 = [] from rfl, chunkArrayGo_nil]
  simp [List.length_take, hl, hm]

/-- C6: the chunked fallback activates only after the unchunked
multi-address query has failed (a successful unchunked result is returned
with zero chunk queries), splits the address set into chunks of fixed size
30 — 61 addresses yield chunks of sizes 30, 30 and 1 — and, provided each
chunk query answers exactly the records for its requested addresses, the
flattened chunk results cover every address of the original set exactly
once, with no duplicates and no omissions. -/
theorem C6_chunked_fallback_coverage {β : Type} (keyOf : β → Address)
    (unchunked : Except Unit (List β)) (query : List Address → List β)
    (allAddresses : List Address)
    (hq : ∀ c ∈ chunkArray allAddresses 30, (query c).map keyOf = c) :
    (∀ r, unchunked = .ok r →
        chunkedFallback unchunked query allAddresses = (r, 0))
    ∧ (unchunked = .error () →
        (chunkedFallback unchunked query allAddresses).2
            = (chunkArray allAddresses 30).length
        ∧ (chunkedFallback unchunked query allAddresses).1.map keyOf = allAddresses)
    ∧ (allAddresses.length = 61 →
        (chunkArray allAddresses 30).map List.length = [30, 30, 1]) := by
  refine ⟨?_, ?_, fun h => chunkArray_lengths_61 allAddresses h⟩
  · intro r hr
    rw [hr]
    rfl
  · intro hr
    rw [hr]
    refine ⟨rfl, ?_⟩
    show (((chunkArray allAddresses 30).map query).flatten).map keyOf = allAddresses
    calc (((chunkArray allAddresses 30).map query).flatten).map keyOf
        = (((chunkArray allAddresses 30).map query).map (List.map keyOf)).flatten :=
          List.map_flatten ..
      _ = ((chunkArray allAddresses 30).map (fun c => (query c).map keyOf)).flatten := by
          rw [List.map_map]; rfl
      _ = ((chunkArray allAddresses 30).map id).flatten := by
          rw [List.map_congr_left ?_]
          intro c hc
          simpa using hq c hc
      _ = (chunkArray allAddresses 30).flatten := by rw [List.map_id]
      _ = allAddresses := chunkArray_flatten allAddresses 30 (by decide)

/-- Witness for C6 at a concrete input: 61 addresses, a failed unchunked
query, and a chunk query answering one dynamic record per address. -/
theorem C6_chunked_fallback_coverage_witness :
    (chunkedFallback (Except.error ()) exChunkQuery exAddresses61).2 = 3
    ∧ (chunkedFallback (Except.error ()) exChunkQuery exAddresses61).1.map
        VaultDynamic.address = exAddresses61
    ∧ (chunkArray exAddresses61 30).map List.length = [30, 30, 1] := by
  have h := C6_chunked_fallback_coverage VaultDynamic.address (Except.error ())
    exChunkQuery exAddresses61 (by
      intro c hc
      simp only [exChunkQuery, List.map_map]
      exact (List.map_congr_left fun a ha => rfl).trans (List.map_id c))
  obtain ⟨-, h2, h3⟩ := h
  obtain ⟨h21, h22⟩ := h2 rfl
  have hlen : exAddresses61.length = 61 := by simp [exAddresses61]
  refine ⟨?_, h22, h3 hlen⟩
  rw [h21]
  have := congrArg List.length (h3 hlen)
  simpa using this
